import Mathlib

/-!
Verification development for the aws-inventory-manager repository.

The development shallowly embeds the parts of the code base that the checked
properties speak about:

* `src/models/config_diff.py` (ConfigDiff, ChangeCategory, the
  security-critical keyword set, construction-time validation, to_dict /
  from_dict),
* `src/delta/models.py` (DriftReport and its category accessors),
* `src/security/checks/sg_checks.py` (SecurityGroupOpenCheck),
* `src/security/checks/iam_checks.py` (IAMCredentialAgeCheck),
* `src/restore/deleter.py` (ResourceDeleter.delete_resource retry loop and
  _attempt_deletion error classification),
* `src/restore/cleaner.py` (ResourceCleaner.preview / execute) together with
  the models they build (DeletionOperation, DeletionRecord) and the slice of
  `src/delta/calculator.py` they invoke (added-resource computation).

Python dictionaries that the code reads by fixed keys are embedded as
structures with one field per key the code touches; Python `None` for string
or value typed slots is `Option`.  External collaborators (snapshot storage,
the live-resource collector, the safety checker, boto3) are parameters of the
embedding, and the orchestrator functions additionally return the list of
collaborator calls they perform, so call-count properties are statable.
-/

namespace AwsInv

/-! ## String helpers

Python `needle in hay` substring containment and `str.lower`, modelled
directly over the character lists of the strings. -/

/-- `leadsList n h` is true when the list `n` is an initial segment of `h`
(the primitive used for substring containment). -/
def leadsList : List Char → List Char → Bool
  | [], _ => true
  | _ :: _, [] => false
  | a :: as, b :: bs => a == b && leadsList as bs

/-- `hasSubList n h` is true when `n` occurs contiguously inside `h`. -/
def hasSubList (needle : List Char) : List Char → Bool
  | [] => needle.isEmpty
  | c :: rest => leadsList needle (c :: rest) || hasSubList needle rest

/-- Python `needle in hay` on strings. -/
def strContainsSub (hay needle : String) : Bool :=
  hasSubList needle.data hay.data

/-- Python `str.lower()` (character-wise lowering, which is what the code
relies on for its ASCII keyword comparisons). -/
def pyLower (s : String) : String :=
  String.mk (s.data.map Char.toLower)

/-- Python `s.startswith(t)`. -/
def pyStartsWith (s t : String) : Bool :=
  leadsList t.data s.data

theorem leadsList_append (xs ys : List Char) : leadsList xs (xs ++ ys) = true := by
  induction xs with
  | nil => rfl
  | cons a as ih => simp [leadsList, ih]

theorem hasSubList_of_leads (n h : List Char) (hl : leadsList n h = true) :
    hasSubList n h = true := by
  cases h with
  | nil =>
    cases n with
    | nil => rfl
    | cons a as => simp [leadsList] at hl
  | cons c rest => simp [hasSubList, hl]

/-! ## ConfigDiff (`src/models/config_diff.py`) -/

/-- A Python value occupying the `old_value` / `new_value` slots of a
ConfigDiff (`Any` in the source; scalars and `None` are what the claims
range over). -/
inductive PyVal where
  | null
  | str (s : String)
  | int (n : Int)
  | bool (b : Bool)
deriving DecidableEq

/-- `ChangeCategory` enum. -/
inductive ChangeCategory where
  | tags
  | configuration
  | security
  | permissions
deriving DecidableEq

/-- `ChangeCategory.value` (the Python enum value strings). -/
def ChangeCategory.value : ChangeCategory → String
  | .tags => "tags"
  | .configuration => "configuration"
  | .security => "security"
  | .permissions => "permissions"

/-- `ChangeCategory(category_str)`: Python enum lookup by value; `none` models
the `ValueError` raised for an unknown value. -/
def ChangeCategory.ofValue : String → Option ChangeCategory
  | "tags" => some .tags
  | "configuration" => some .configuration
  | "security" => some .security
  | "permissions" => some .permissions
  | _ => none

/-- `SECURITY_CRITICAL_FIELDS` from `config_diff.py`. -/
def SECURITY_CRITICAL_FIELDS : List String :=
  ["PubliclyAccessible", "public", "encryption", "kms", "SecurityGroups",
   "IpPermissions", "IpPermissionsEgress", "Policy", "BucketPolicy", "Acl",
   "HttpTokens", "MetadataOptions"]

/-- The `ConfigDiff` dataclass fields. -/
structure ConfigDiff where
  resource_arn : String
  field_path : String
  old_value : PyVal
  new_value : PyVal
  category : ChangeCategory
deriving DecidableEq

/-- `ConfigDiff.__post_init__`: dataclass construction runs this validation;
`Except.error` models the raised `ValueError`.  (The `isinstance(category,
ChangeCategory)` check is vacuously true in the typed embedding.) -/
def ConfigDiff.postInit (resource_arn field_path : String)
    (old_value new_value : PyVal) (category : ChangeCategory) :
    Except String ConfigDiff :=
  if resource_arn == "" || !(pyStartsWith resource_arn "arn:") then
    .error ("Invalid ARN format: " ++ resource_arn)
  else if field_path == "" then
    .error "field_path cannot be empty"
  else
    .ok ⟨resource_arn, field_path, old_value, new_value, category⟩

/-- `ConfigDiff.is_security_critical`. -/
def ConfigDiff.is_security_critical (d : ConfigDiff) : Bool :=
  SECURITY_CRITICAL_FIELDS.any fun keyword =>
    strContainsSub (pyLower d.field_path) (pyLower keyword)

/-- The dictionary produced by `ConfigDiff.to_dict` (one field per key). -/
structure ConfigDiffDict where
  resource_arn : String
  field_path : String
  old_value : PyVal
  new_value : PyVal
  category : String
  security_critical : Bool
deriving DecidableEq

/-- `ConfigDiff.to_dict`. -/
def ConfigDiff.to_dict (d : ConfigDiff) : ConfigDiffDict :=
  { resource_arn := d.resource_arn
    field_path := d.field_path
    old_value := d.old_value
    new_value := d.new_value
    category := d.category.value
    security_critical := d.is_security_critical }

/-- `ConfigDiff.from_dict`: parses the (lowered) category value, raising for
an unknown one, then constructs the dataclass (which re-runs
`__post_init__`).  The `security_critical` entry of the dictionary is never
read. -/
def ConfigDiff.from_dict (data : ConfigDiffDict) : Except String ConfigDiff :=
  match ChangeCategory.ofValue (pyLower data.category) with
  | none => .error ("Invalid category value: " ++ pyLower data.category)
  | some category =>
      ConfigDiff.postInit data.resource_arn data.field_path
        data.old_value data.new_value category

/-- Boolean success projection for `Except` (a constructed-without-raising
test). -/
def exceptOk {ε α : Type} : Except ε α → Bool
  | .ok _ => true
  | .error _ => false

/-! ## DriftReport (`src/delta/models.py`) -/

/-- `DriftReport`: the `_diffs` list it owns. -/
structure DriftReport where
  diffs : List ConfigDiff
deriving DecidableEq

/-- `DriftReport.total_changes`. -/
def DriftReport.total_changes (r : DriftReport) : Nat :=
  r.diffs.length

/-- `DriftReport.get_all_diffs` (the defensive copy is identity for values). -/
def DriftReport.get_all_diffs (r : DriftReport) : List ConfigDiff :=
  r.diffs

/-- `DriftReport.get_diffs_by_category`. -/
def DriftReport.get_diffs_by_category (r : DriftReport) (category : ChangeCategory) :
    List ConfigDiff :=
  r.diffs.filter fun d => decide (d.category = category)

/-- `DriftReport.get_security_critical_diffs`. -/
def DriftReport.get_security_critical_diffs (r : DriftReport) : List ConfigDiff :=
  r.diffs.filter fun d => d.is_security_critical

/-- The summary dictionary of `DriftReport.get_summary`. -/
structure DriftSummary where
  total_changes : Nat
  tags_count : Nat
  configuration_count : Nat
  security_count : Nat
  permissions_count : Nat
  security_critical_count : Nat
deriving DecidableEq

/-- `DriftReport.get_summary`. -/
def DriftReport.get_summary (r : DriftReport) : DriftSummary :=
  { total_changes := r.total_changes
    tags_count := (r.get_diffs_by_category .tags).length
    configuration_count := (r.get_diffs_by_category .configuration).length
    security_count := (r.get_diffs_by_category .security).length
    permissions_count := (r.get_diffs_by_category .permissions).length
    security_critical_count := r.get_security_critical_diffs.length }

/-! ### Theorems about ConfigDiff and DriftReport -/

theorem filter_four_categories (l : List AwsInv.ConfigDiff) :
    (l.filter fun d => decide (d.category = .tags)).length
      + (l.filter fun d => decide (d.category = .configuration)).length
      + (l.filter fun d => decide (d.category = .security)).length
      + (l.filter fun d => decide (d.category = .permissions)).length
      = l.length := by
  induction l with
  | nil => rfl
  | cons d rest ih =>
    cases h : d.category <;> simp [List.filter_cons, h] <;> omega

/-- C10: the four per-category counts of `DriftReport.get_summary` sum to
`total_changes`; the four `ChangeCategory` filters partition the diff list. -/
theorem drift_summary_counts_partition (r : AwsInv.DriftReport) :
    (r.get_summary).tags_count + (r.get_summary).configuration_count
      + (r.get_summary).security_count + (r.get_summary).permissions_count
      = (r.get_summary).total_changes := by
  simp only [DriftReport.get_summary, DriftReport.get_diffs_by_category,
    DriftReport.total_changes]
  exact filter_four_categories r.diffs

/-- C7 counterexample: a `ConfigDiff` whose `old_value` and `new_value` are
both `None` is constructed without any validation error — `__post_init__`
never checks that at least one of the two values is non-null. -/
theorem config_diff_both_null_constructible :
    ConfigDiff.postInit "arn:aws:ec2:us-east-1:123456789012:instance/i-1"
        "Tags.Env" PyVal.null PyVal.null ChangeCategory.tags
      = Except.ok ⟨"arn:aws:ec2:us-east-1:123456789012:instance/i-1",
          "Tags.Env", PyVal.null, PyVal.null, ChangeCategory.tags⟩ := by
  rfl

/-- C7 (amended): `ConfigDiff` construction succeeds exactly when the ARN
starts with `"arn:"` and the field path is non-empty; the values are not
inspected, so a diff with both values null is constructible. -/
theorem config_diff_postInit_ok_iff (arn path : String)
    (old_value new_value : PyVal) (category : ChangeCategory) :
    exceptOk (ConfigDiff.postInit arn path old_value new_value category)
      = (pyStartsWith arn "arn:" && path != "") := by
  by_cases h1 : arn = ""
  · subst h1
    have h2 : pyStartsWith "" "arn:" = false := by decide
    simp [ConfigDiff.postInit, exceptOk, h2]
  · have h1b : (arn == "") = false := beq_eq_false_iff_ne.mpr h1
    by_cases h2 : pyStartsWith arn "arn:"
    · by_cases h3 : path = ""
      · subst h3
        simp [ConfigDiff.postInit, exceptOk, h1b, h2]
      · have h3b : (path == "") = false := beq_eq_false_iff_ne.mpr h3
        simp [ConfigDiff.postInit, exceptOk, h1b, h2, h3b, bne]
    · have h2b : pyStartsWith arn "arn:" = false := by
        simpa using h2
      simp [ConfigDiff.postInit, exceptOk, h1b, h2b]

theorem category_value_roundtrip (c : AwsInv.ChangeCategory) :
    ChangeCategory.ofValue (pyLower c.value) = some c := by
  cases c <;> rfl

/-- C8: `from_dict ∘ to_dict` reproduces any (validly constructed)
`ConfigDiff`; the derived `security_critical` entry of the dictionary is
ignored by `from_dict`. -/
theorem config_diff_roundtrip (d : AwsInv.ConfigDiff)
    (harn : pyStartsWith d.resource_arn "arn:" = true)
    (hpath : d.field_path ≠ "") :
    ConfigDiff.from_dict d.to_dict = Except.ok d := by
  have hne : d.resource_arn ≠ "" := by
    intro h
    rw [h] at harn
    exact absurd harn (by decide)
  have harnb : (d.resource_arn == "") = false := beq_eq_false_iff_ne.mpr hne
  have hpathb : (d.field_path == "") = false := beq_eq_false_iff_ne.mpr hpath
  simp [ConfigDiff.from_dict, ConfigDiff.to_dict, category_value_roundtrip,
    ConfigDiff.postInit, harnb, harn, hpathb]

/-- Concrete diff used to witness the round-trip theorem. -/
def c8diff : AwsInv.ConfigDiff :=
  ⟨"arn:aws:ec2:us-east-1:123456789012:instance/i-1", "Tags.Env",
    PyVal.null, PyVal.str "prod", ChangeCategory.tags⟩

/-- Witness for C8 at a concrete diff (null old value, non-null new value). -/
theorem config_diff_roundtrip_witness :
    ConfigDiff.from_dict c8diff.to_dict = Except.ok c8diff :=
  config_diff_roundtrip c8diff (by decide) (by decide)

/-! ## Security findings (`src/models/security_finding.py`) -/

/-- `Severity` enum. -/
inductive Severity where
  | critical
  | high
  | medium
  | low
deriving DecidableEq

/-- A value in a finding metadata dictionary (`Dict[str, Any]`; the checks
store strings and ints). -/
inductive MetaVal where
  | s (v : String)
  | i (v : Int)
deriving DecidableEq

/-- `SecurityFinding` with its metadata dictionary as an association list. -/
structure SecurityFinding where
  resource_arn : String
  finding_type : String
  severity : Severity
  description : String
  remediation : String
  cis_control : Option String
  metadata : List (String × MetaVal)
deriving DecidableEq

/-! ## SecurityGroupOpenCheck (`src/security/checks/sg_checks.py`)

`raw_config` is a provider-native dictionary; the check reads the keys
`IpPermissions`, and per permission `FromPort`, `ToPort` and `IpRanges`
(each range carrying `CidrIp`), plus `GroupId` at top level.  These are
embedded as the structures below; a missing `FromPort`/`ToPort` is `none`. -/

structure IpRange where
  CidrIp : String
deriving DecidableEq

structure IpPermission where
  FromPort : Option Int
  ToPort : Option Int
  IpRanges : List IpRange
deriving DecidableEq

structure SGConfig where
  GroupId : String
  IpPermissions : List IpPermission
deriving DecidableEq

/-- A snapshot resource as seen by the security-group check: the fields the
check reads (`resource_type`, `raw_config`, `arn`, `name`). -/
structure SGResource where
  arn : String
  resource_type : String
  name : String
  raw_config : Option SGConfig
deriving DecidableEq

/-- The resource list of the snapshot handed to the check. -/
structure SGSnapshot where
  resources : List SGResource
deriving DecidableEq

namespace SecurityGroupOpenCheck

/-- `CRITICAL_PORTS`: port, display name, CIS control — in the insertion
order of the source dictionary. -/
def CRITICAL_PORTS : List (Int × String × String) :=
  [(22, "SSH", "5.2"), (3389, "RDP", "5.3"), (3306, "MySQL", "5.2"),
   (5432, "PostgreSQL", "5.2"), (1433, "Microsoft SQL Server", "5.2"),
   (27017, "MongoDB", "5.2")]

/-- `CRITICAL_PORTS.keys()` in iteration order. -/
def criticalPortKeys : List Int :=
  CRITICAL_PORTS.map (·.1)

/-- `CRITICAL_PORTS[port]` (total lookup; the check only indexes with ports
drawn from the key list). -/
def criticalPortInfo (port : Int) : String × String :=
  match CRITICAL_PORTS.lookup port with
  | some info => info
  | none => ("", "")

/-- `_is_open_to_world`. -/
def is_open_to_world (permission : IpPermission) : Bool :=
  permission.IpRanges.any fun r => r.CidrIp == "0.0.0.0/0"

/-- The ports a single permission contributes to `_find_open_critical_ports`
(the inner `for critical_port in ...` loop body). -/
def permOpenPorts (permission : IpPermission) : List Int :=
  match permission.FromPort, permission.ToPort with
  | some from_port, some to_port =>
      criticalPortKeys.filter fun critical_port =>
        decide (from_port ≤ critical_port) && decide (critical_port ≤ to_port)
          && is_open_to_world permission
  | _, _ => []

/-- `_find_open_critical_ports`: iterates the permissions, appending for each
one every critical port inside its range when it is open to the world.  A
port opened by several permissions is appended several times. -/
def find_open_critical_ports (config : SGConfig) : List Int :=
  config.IpPermissions.foldl (fun open_ports permission =>
    open_ports ++ permOpenPorts permission) []

/-- The finding built for one offending port inside `execute`. -/
def mkFinding (resource : SGResource) (config : SGConfig) (port : Int) :
    SecurityFinding :=
  let info := criticalPortInfo port
  { resource_arn := resource.arn
    finding_type := "security_group_open"
    severity := .high
    description := "Security group \x27" ++ resource.name ++ "\x27 has port "
      ++ toString port ++ " (" ++ info.1
      ++ ") open to 0.0.0.0/0. This allows unrestricted access from the internet."
    remediation := "Restrict access to port " ++ toString port
      ++ " by removing the 0.0.0.0/0 CIDR range from the security group ingress rules. "
      ++ "Only allow access from specific, trusted IP addresses or CIDR blocks that require access."
    cis_control := some info.2
    metadata := [("group_id", .s config.GroupId), ("port", .i port),
                 ("protocol", .s "tcp"), ("cidr", .s "0.0.0.0/0")] }

/-- `SecurityGroupOpenCheck.execute`. -/
def execute (snapshot : SGSnapshot) : List SecurityFinding :=
  snapshot.resources.foldl (fun findings resource =>
    if !(pyStartsWith resource.resource_type "ec2:security-group") then
      findings
    else
      match resource.raw_config with
      | none => findings
      | some config =>
          findings ++ (find_open_critical_ports config).map (mkFinding resource config))
    []

/-- The `metadata["port"]` entry of a finding. -/
def findingPort (f : SecurityFinding) : Option MetaVal :=
  f.metadata.lookup "port"

/-- Whether a single ingress permission has a defined port range covering `p`
and is open to `0.0.0.0/0` — the condition under which the inner loop of
`_find_open_critical_ports` appends `p` for this permission. -/
def permCoversOpen (permission : IpPermission) (p : Int) : Bool :=
  match permission.FromPort, permission.ToPort with
  | some from_port, some to_port =>
      decide (from_port ≤ p) && decide (p ≤ to_port) && is_open_to_world permission
  | _, _ => false

theorem permOpenPorts_eq (permission : IpPermission) :
    permOpenPorts permission = criticalPortKeys.filter (permCoversOpen permission) := by
  cases hf : permission.FromPort <;> cases ht : permission.ToPort
  · simp only [permOpenPorts, hf, ht]
    symm
    refine List.filter_eq_nil_iff.mpr ?_
    intro cp _
    simp [permCoversOpen, hf, ht]
  · simp only [permOpenPorts, hf, ht]
    symm
    refine List.filter_eq_nil_iff.mpr ?_
    intro cp _
    simp [permCoversOpen, hf, ht]
  · simp only [permOpenPorts, hf, ht]
    symm
    refine List.filter_eq_nil_iff.mpr ?_
    intro cp _
    simp [permCoversOpen, hf, ht]
  · simp only [permOpenPorts, hf, ht]
    refine List.filter_congr ?_
    intro cp _
    simp [permCoversOpen, hf, ht]

theorem count_filter_nodup {α : Type} [DecidableEq α] (pred : α → Bool)
    (l : List α) (hl : l.Nodup) (a : α) (ha : a ∈ l) :
    (l.filter pred).count a = if pred a then 1 else 0 := by
  induction l with
  | nil => cases ha
  | cons b rest ih =>
    have hb := List.nodup_cons.mp hl
    rcases List.mem_cons.mp ha with rfl | hmem
    · have hzero : (rest.filter pred).count a = 0 :=
        List.count_eq_zero_of_not_mem fun h => hb.1 (List.mem_filter.mp h).1
      by_cases hp : pred a
      · simp [List.filter_cons, hp, hzero]
      · simp [List.filter_cons, hp, hzero]
    · have hab : a ≠ b := fun h => hb.1 (h ▸ hmem)
      by_cases hp : pred b
      · simp [List.filter_cons, hp, List.count_cons_of_ne hab, ih hb.2 hmem]
      · simp [List.filter_cons, hp, ih hb.2 hmem]

theorem foldl_append_flatten {α β : Type} (g : α → List β) (l : List α)
    (init : List β) :
    l.foldl (fun acc x => acc ++ g x) init = init ++ (l.map g).flatten := by
  induction l generalizing init with
  | nil => simp
  | cons x xs ih => simp [ih, List.append_assoc]

theorem find_open_eq_flatten (config : SGConfig) :
    find_open_critical_ports config
      = (config.IpPermissions.map permOpenPorts).flatten := by
  simp [find_open_critical_ports, foldl_append_flatten]

theorem findingPort_mkFinding (resource : SGResource) (config : SGConfig)
    (port : Int) :
    findingPort (mkFinding resource config port) = some (.i port) := by
  rfl

theorem count_permOpenPorts (permission : IpPermission) (p : Int)
    (hp : p ∈ criticalPortKeys) :
    (permOpenPorts permission).count p
      = if permCoversOpen permission p then 1 else 0 := by
  have hnodup : criticalPortKeys.Nodup := by decide
  rw [permOpenPorts_eq]
  exact count_filter_nodup (permCoversOpen permission) criticalPortKeys hnodup p hp

theorem count_find_open (config : SGConfig) (p : Int)
    (hp : p ∈ criticalPortKeys) :
    (find_open_critical_ports config).count p
      = (config.IpPermissions.filter fun permission =>
          permCoversOpen permission p).length := by
  rw [find_open_eq_flatten]
  induction config.IpPermissions with
  | nil => rfl
  | cons permission rest ih =>
    rw [List.map_cons, List.flatten_cons, List.count_append, ih,
      List.filter_cons, count_permOpenPorts permission p hp]
    by_cases h : permCoversOpen permission p
    · simp [h, Nat.add_comm]
    · simp [h]

end SecurityGroupOpenCheck

/-- The security group used to refute the one-finding-per-port claim: two
ingress rules (22–22 and 20–25), both open to `0.0.0.0/0`, both covering
critical port 22. -/
def sgDupResource : SGResource :=
  { arn := "arn:aws:ec2:us-east-1:123456789012:security-group/sg-dup"
    resource_type := "ec2:security-group"
    name := "sg-dup"
    raw_config := some
      { GroupId := "sg-dup"
        IpPermissions :=
          [{ FromPort := some 22, ToPort := some 22, IpRanges := [⟨"0.0.0.0/0"⟩] },
           { FromPort := some 20, ToPort := some 25, IpRanges := [⟨"0.0.0.0/0"⟩] }] } }

/-- C4 counterexample: with two world-open rules covering port 22,
`SecurityGroupOpenCheck.execute` emits two findings for port 22, not exactly
one per offending port. -/
theorem sg_two_rules_two_findings :
    ((SecurityGroupOpenCheck.execute ⟨[sgDupResource]⟩).filter fun f =>
        SecurityGroupOpenCheck.findingPort f == some (.i 22)).length = 2 := by
  decide

/-- C4 (amended): per security-group resource, `execute` emits one HIGH
finding per (ingress rule, critical port) pair in which the rule has a
defined port range covering the port and is open to `0.0.0.0/0`; a port
opened only to non-world CIDRs (for which no such rule exists) gets no
finding, and a port opened by several world-open rules gets one finding per
such rule. -/
theorem sg_execute_rule_port_counts (resource : SGResource) (config : SGConfig)
    (p : Int)
    (hconfig : resource.raw_config = some config)
    (htype : pyStartsWith resource.resource_type "ec2:security-group" = true)
    (hp : p ∈ SecurityGroupOpenCheck.criticalPortKeys) :
    ((SecurityGroupOpenCheck.execute ⟨[resource]⟩).filter fun f =>
        SecurityGroupOpenCheck.findingPort f == some (.i p)).length
      = (config.IpPermissions.filter fun permission =>
          SecurityGroupOpenCheck.permCoversOpen permission p).length
    ∧ ∀ f ∈ SecurityGroupOpenCheck.execute ⟨[resource]⟩,
        f.severity = Severity.high := by
  have hexec : SecurityGroupOpenCheck.execute ⟨[resource]⟩
      = (SecurityGroupOpenCheck.find_open_critical_ports config).map
          (SecurityGroupOpenCheck.mkFinding resource config) := by
    simp [SecurityGroupOpenCheck.execute, htype, hconfig]
  constructor
  · rw [hexec, ← List.countP_eq_length_filter, List.countP_map,
      ← SecurityGroupOpenCheck.count_find_open config p hp,
      List.count_eq_countP]
    refine List.countP_congr ?_
    intro q _
    show (SecurityGroupOpenCheck.findingPort
        (SecurityGroupOpenCheck.mkFinding resource config q)
          == some (MetaVal.i p)) = true ↔ (q == p) = true
    rw [SecurityGroupOpenCheck.findingPort_mkFinding]
    simp
  · intro f hf
    rw [hexec] at hf
    rcases List.mem_map.mp hf with ⟨q, _, hq⟩
    rw [← hq]
    rfl

/-- Witness for the amended C4 theorem at the concrete two-rule group. -/
theorem sg_execute_rule_port_counts_witness :
    ((SecurityGroupOpenCheck.execute ⟨[sgDupResource]⟩).filter fun f =>
        SecurityGroupOpenCheck.findingPort f == some (.i 3306)).length
      = ((sgDupResource.raw_config.getD ⟨"", []⟩).IpPermissions.filter
          fun permission =>
            SecurityGroupOpenCheck.permCoversOpen permission 3306).length :=
  (sg_execute_rule_port_counts sgDupResource
    { GroupId := "sg-dup"
      IpPermissions :=
        [{ FromPort := some 22, ToPort := some 22, IpRanges := [⟨"0.0.0.0/0"⟩] },
         { FromPort := some 20, ToPort := some 25, IpRanges := [⟨"0.0.0.0/0"⟩] }] }
    3306 rfl (by decide) (by decide)).1

/-! ## IAMCredentialAgeCheck (`src/security/checks/iam_checks.py`)

The check reads `AccessKeys` from the raw configuration of `iam:user`
resources; each key carries `CreateDate` and `AccessKeyId`.  Timestamps are
embedded as seconds (integers); the source parses an ISO timestamp and takes
`(datetime.now(utc) - create_date).days`, which is the floor of the elapsed
seconds over 86400 (`Int.fdiv` below).  `CreateDate = none` models a key
whose `CreateDate` entry is missing or empty (skipped by the source). -/

structure AccessKey where
  CreateDate : Option Int
  AccessKeyId : Option String
deriving DecidableEq

structure IAMConfig where
  AccessKeys : List AccessKey
deriving DecidableEq

structure IAMResource where
  arn : String
  resource_type : String
  name : String
  raw_config : Option IAMConfig
deriving DecidableEq

structure IAMSnapshot where
  resources : List IAMResource
deriving DecidableEq

namespace IAMCredentialAgeCheck

/-- `threshold_days = 90`. -/
def threshold_days : Int := 90

/-- `(datetime.now(timezone.utc) - create_date).days`. -/
def days_old (nowSec createSec : Int) : Int :=
  Int.fdiv (nowSec - createSec) 86400

/-- The finding built for an offending key. -/
def mkFinding (resource : IAMResource) (days : Int) (key : AccessKey) :
    SecurityFinding :=
  { resource_arn := resource.arn
    finding_type := "iam_credential_age"
    severity := .medium
    description := "IAM user \x27" ++ resource.name
      ++ "\x27 has an access key that is " ++ toString days
      ++ " days old, exceeding the " ++ toString threshold_days
      ++ "-day threshold. Old credentials increase security risk."
    remediation := "Rotate the access key for this IAM user. "
      ++ "Create a new access key, update all applications using the old key, "
      ++ "then deactivate and delete the old key. "
      ++ "Consider using IAM roles instead of long-term credentials."
    cis_control := some "1.4"
    metadata := [("user_name", .s resource.name), ("key_age_days", .i days),
                 ("key_id", .s (key.AccessKeyId.getD "unknown"))] }

/-- The per-user key loop of `execute`: keys without a creation date are
skipped; the first key strictly older than the threshold produces the single
finding for this user (the `break` in the source), and later keys are not
examined. -/
def scanKeys (nowSec : Int) (resource : IAMResource) :
    List AccessKey → List SecurityFinding
  | [] => []
  | key :: rest =>
      match key.CreateDate with
      | none => scanKeys nowSec resource rest
      | some createSec =>
          let days := days_old nowSec createSec
          if threshold_days < days then [mkFinding resource days key]
          else scanKeys nowSec resource rest

/-- `IAMCredentialAgeCheck.execute` (with the wall clock as an explicit
argument). -/
def execute (nowSec : Int) (snapshot : IAMSnapshot) : List SecurityFinding :=
  snapshot.resources.foldl (fun findings resource =>
    if !(pyStartsWith resource.resource_type "iam:user") then findings
    else
      match resource.raw_config with
      | none => findings
      | some config => findings ++ scanKeys nowSec resource config.AccessKeys)
    []

end IAMCredentialAgeCheck

/-- IAM user whose key list holds a 100-day-old key first and a 200-day-old
key second (the failing input for the oldest-credential claim). -/
def iamTwoKeyUser : IAMResource :=
  { arn := "arn:aws:iam::123456789012:user/alice"
    resource_type := "iam:user"
    name := "alice"
    raw_config := some
      { AccessKeys :=
          [{ CreateDate := some ((1000 - 100) * 86400), AccessKeyId := some "AKIAFIRST" },
           { CreateDate := some ((1000 - 200) * 86400), AccessKeyId := some "AKIAOLDEST" }] } }

/-- IAM user with a single key aged exactly 90 days. -/
def iamNinetyDayUser : IAMResource :=
  { arn := "arn:aws:iam::123456789012:user/bob"
    resource_type := "iam:user"
    name := "bob"
    raw_config := some
      { AccessKeys := [{ CreateDate := some ((1000 - 90) * 86400), AccessKeyId := some "AKIA90" }] } }

/-- IAM user with a single key aged 91 days. -/
def iamNinetyOneDayUser : IAMResource :=
  { arn := "arn:aws:iam::123456789012:user/carol"
    resource_type := "iam:user"
    name := "carol"
    raw_config := some
      { AccessKeys := [{ CreateDate := some ((1000 - 91) * 86400), AccessKeyId := some "AKIA91" }] } }

/-- C9: evaluation of the check at the failing input.  With keys
[100 days old, 200 days old] the check emits exactly one MEDIUM finding, but
it reports the first offending key (age 100, id "AKIAFIRST") rather than the
oldest one (age 200, id "AKIAOLDEST") as the inline comment next to the
`break` and the claim require.  The boundary conjuncts confirm that a key
aged exactly 90 days yields no finding while 91 days yields one. -/
theorem iam_check_reports_first_offending_key :
    ((IAMCredentialAgeCheck.execute (1000 * 86400) ⟨[iamTwoKeyUser]⟩).map
        fun f => (f.severity, f.metadata.lookup "key_age_days",
          f.metadata.lookup "key_id", f.cis_control))
      = [(Severity.medium, some (MetaVal.i 100), some (MetaVal.s "AKIAFIRST"),
          some "1.4")]
    ∧ IAMCredentialAgeCheck.execute (1000 * 86400) ⟨[iamNinetyDayUser]⟩ = []
    ∧ (IAMCredentialAgeCheck.execute (1000 * 86400) ⟨[iamNinetyOneDayUser]⟩).length
        = 1 := by
  refine ⟨?_, ?_, ?_⟩ <;> rfl

/-! ## ResourceDeleter (`src/restore/deleter.py`)

The boto3 call inside `_attempt_deletion` is the only external effect; one
attempt is therefore summarised by an `AttemptEv`: the call returns normally,
raises a `ClientError` with a code and message, or raises some other
exception.  `_attempt_deletion` wraps its whole body in try/except blocks
that catch every exception, so `delete_resource` observes only the returned
`(success, error_message)` pair — the generic `except` branch inside
`delete_resource`'s loop is unreachable and has no counterpart here.  The
`time.sleep` backoff has no bearing on the returned value and is not
modelled. -/

/-- Outcome of the provider call underlying one deletion attempt. -/
inductive AttemptEv where
  | ok
  | clientError (code msg : String)
  | unexpected (msg : String)
deriving DecidableEq

namespace ResourceDeleter

/-- `DELETION_METHODS`: resource type → (service, method, id parameter). -/
def DELETION_METHODS : List (String × String × String × String) :=
  [("AWS::EC2::Instance", "ec2", "terminate_instances", "InstanceIds"),
   ("AWS::EC2::SecurityGroup", "ec2", "delete_security_group", "GroupId"),
   ("AWS::EC2::Volume", "ec2", "delete_volume", "VolumeId"),
   ("AWS::EC2::VPC", "ec2", "delete_vpc", "VpcId"),
   ("AWS::EC2::Subnet", "ec2", "delete_subnet", "SubnetId"),
   ("AWS::EC2::InternetGateway", "ec2", "delete_internet_gateway", "InternetGatewayId"),
   ("AWS::EC2::RouteTable", "ec2", "delete_route_table", "RouteTableId"),
   ("AWS::EC2::NetworkInterface", "ec2", "delete_network_interface", "NetworkInterfaceId"),
   ("AWS::EC2::KeyPair", "ec2", "delete_key_pair", "KeyName"),
   ("AWS::S3::Bucket", "s3", "delete_bucket", "Bucket"),
   ("AWS::Lambda::Function", "lambda", "delete_function", "FunctionName"),
   ("AWS::DynamoDB::Table", "dynamodb", "delete_table", "TableName"),
   ("AWS::RDS::DBInstance", "rds", "delete_db_instance", "DBInstanceIdentifier"),
   ("AWS::RDS::DBCluster", "rds", "delete_db_cluster", "DBClusterIdentifier"),
   ("AWS::IAM::Role", "iam", "delete_role", "RoleName"),
   ("AWS::IAM::User", "iam", "delete_user", "UserName"),
   ("AWS::IAM::Policy", "iam", "delete_policy", "PolicyArn"),
   ("AWS::ECS::Service", "ecs", "delete_service", "service"),
   ("AWS::ECS::Cluster", "ecs", "delete_cluster", "cluster"),
   ("AWS::ECS::TaskDefinition", "ecs", "deregister_task_definition", "taskDefinition"),
   ("AWS::EKS::Cluster", "eks", "delete_cluster", "name"),
   ("AWS::SNS::Topic", "sns", "delete_topic", "TopicArn"),
   ("AWS::SQS::Queue", "sqs", "delete_queue", "QueueUrl"),
   ("AWS::CloudWatch::Alarm", "cloudwatch", "delete_alarms", "AlarmNames"),
   ("AWS::ApiGateway::RestApi", "apigateway", "delete_rest_api", "restApiId"),
   ("AWS::KMS::Key", "kms", "schedule_key_deletion", "KeyId"),
   ("AWS::SecretsManager::Secret", "secretsmanager", "delete_secret", "SecretId"),
   ("AWS::ElasticLoadBalancing::LoadBalancer", "elb", "delete_load_balancer", "LoadBalancerName"),
   ("AWS::ElasticLoadBalancingV2::LoadBalancer", "elbv2", "delete_load_balancer", "LoadBalancerArn"),
   ("AWS::EFS::FileSystem", "efs", "delete_file_system", "FileSystemId"),
   ("AWS::ElastiCache::CacheCluster", "elasticache", "delete_cache_cluster", "CacheClusterId")]

/-- The error codes treated as "resource already deleted" (success). -/
def ALREADY_DELETED_CODES : List String :=
  ["InvalidInstanceID.NotFound", "NoSuchEntity", "ResourceNotFoundException"]

/-- `_attempt_deletion`: classification of one provider call.  Every
exception is caught inside the method, so it always returns a pair. -/
def attempt_deletion (ev : AttemptEv) : Bool × Option String :=
  match ev with
  | .ok => (true, none)
  | .clientError code msg =>
      if ALREADY_DELETED_CODES.contains code then (true, none)
      else if code == "DependencyViolation" then
        (false, some ("DependencyViolation: " ++ msg))
      else (false, some (code ++ ": " ++ msg))
  | .unexpected msg => (false, some ("Unexpected error: " ++ msg))

/-- The `for attempt in range(self.max_retries)` loop of `delete_resource`:
`remaining` is the number of attempts left (`attempt = max_retries -
remaining`), and `events` supplies the provider outcome of each attempt by
index.  Running out of attempts produces the retry-exhausted message; a
failure whose message contains "DependencyViolation" consumes an attempt and
continues; any other failure returns immediately. -/
def deleteLoop (resource_type resource_id : String) (max_retries : Nat)
    (events : Nat → AttemptEv) : Nat → Bool × Option String
  | 0 => (false, some ("Failed to delete " ++ resource_type ++ " "
      ++ resource_id ++ " after " ++ toString max_retries ++ " attempts"))
  | remaining + 1 =>
      let res := attempt_deletion (events (max_retries - (remaining + 1)))
      if res.1 then (true, none)
      else if strContainsSub (res.2.getD "") "DependencyViolation" then
        deleteLoop resource_type resource_id max_retries events remaining
      else (false, res.2)

/-- `ResourceDeleter.delete_resource`. -/
def delete_resource (resource_type resource_id : String) (max_retries : Nat)
    (events : Nat → AttemptEv) : Bool × Option String :=
  if (DELETION_METHODS.lookup resource_type).isNone then
    (false, some ("Unsupported resource type: " ++ resource_type))
  else deleteLoop resource_type resource_id max_retries events max_retries

end ResourceDeleter

/-- Attempt outcomes where the first attempt raises an unexpected exception
and every later attempt would succeed. -/
def unexpectedThenOk : Nat → AttemptEv
  | 0 => .unexpected "boom"
  | _ + 1 => .ok

/-- C5 counterexample: an unexpected (non-provider) exception on the first
attempt is not retried — `delete_resource` returns failure immediately with
the message "Unexpected error: boom" even though the second attempt would
have succeeded, and the message contains neither the resource type/id nor
the max-retry count. -/
theorem deleter_unexpected_not_retried :
    ResourceDeleter.delete_resource "AWS::EC2::Instance" "i-1" 3 unexpectedThenOk
        = (false, some "Unexpected error: boom")
    ∧ strContainsSub "Unexpected error: boom" "i-1" = false
    ∧ strContainsSub "Unexpected error: boom" "AWS::EC2::Instance" = false
    ∧ strContainsSub "Unexpected error: boom" "3 attempts" = false := by
  refine ⟨?_, ?_, ?_, ?_⟩ <;> rfl

/-- C5 (amended): an unexpected (non-provider) exception during an attempt
is caught inside `_attempt_deletion` and surfaced by `delete_resource` as an
immediate, non-retried failure with the message `"Unexpected error: " +
exception` (which names neither the resource type/id nor the retry count);
only failures whose message contains "DependencyViolation" are retried.  The
second part shows the retried path: when every attempt fails with a
DependencyViolation client error, the retry limit is exhausted and the
result is the generic message naming the resource type, id and max-retry
count. -/
theorem deleter_unexpected_immediate_failure (resource_type resource_id msg : String)
    (max_retries : Nat) (events : Nat → AttemptEv)
    (hsupported : (ResourceDeleter.DELETION_METHODS.lookup resource_type).isNone = false)
    (hpos : 0 < max_retries)
    (hfirst : events 0 = .unexpected msg)
    (hnodep : strContainsSub ("Unexpected error: " ++ msg) "DependencyViolation" = false) :
    ResourceDeleter.delete_resource resource_type resource_id max_retries events
        = (false, some ("Unexpected error: " ++ msg))
    ∧ ∀ depmsg : String,
        ResourceDeleter.delete_resource resource_type resource_id max_retries
            (fun _ => .clientError "DependencyViolation" depmsg)
          = (false, some ("Failed to delete " ++ resource_type ++ " "
              ++ resource_id ++ " after " ++ toString max_retries ++ " attempts")) := by
  constructor
  · unfold ResourceDeleter.delete_resource
    rw [hsupported]
    simp only [Bool.false_eq_true, if_false]
    obtain ⟨n, rfl⟩ : ∃ n, max_retries = n + 1 :=
      ⟨max_retries - 1, (Nat.succ_pred_eq_of_pos hpos).symm⟩
    unfold ResourceDeleter.deleteLoop
    rw [Nat.sub_self, hfirst]
    simp [ResourceDeleter.attempt_deletion, hnodep]
  · intro depmsg
    unfold ResourceDeleter.delete_resource
    rw [hsupported]
    simp only [Bool.false_eq_true, if_false]
    have hcontains : strContainsSub ("DependencyViolation: " ++ depmsg)
        "DependencyViolation" = true := by
      have hsplit : ("DependencyViolation: " ++ depmsg).data
          = ("DependencyViolation: ").data ++ depmsg.data := rfl
      have hdata : ("DependencyViolation: " ++ depmsg).data
          = "DependencyViolation".data ++ ((": ").data ++ depmsg.data) := by
        rw [hsplit, ← List.append_assoc]
        rfl
      show hasSubList ("DependencyViolation".data)
          (("DependencyViolation: " ++ depmsg).data) = true
      rw [hdata]
      exact hasSubList_of_leads _ _ (leadsList_append _ _)
    have hatt : ResourceDeleter.attempt_deletion
        (.clientError "DependencyViolation" depmsg)
          = (false, some ("DependencyViolation: " ++ depmsg)) := rfl
    have hdep : ∀ remaining : Nat,
        ResourceDeleter.deleteLoop resource_type resource_id max_retries
            (fun _ => .clientError "DependencyViolation" depmsg) remaining
          = (false, some ("Failed to delete " ++ resource_type ++ " "
              ++ resource_id ++ " after " ++ toString max_retries ++ " attempts")) := by
      intro remaining
      induction remaining with
      | zero => rfl
      | succ n ih =>
        unfold ResourceDeleter.deleteLoop
        simp only [hatt]
        simp [hcontains, ih]
    exact hdep max_retries

/-- Witness for the amended C5 theorem at a concrete supported type and
unexpected-exception message. -/
theorem deleter_unexpected_immediate_failure_witness :
    ResourceDeleter.delete_resource "AWS::S3::Bucket" "my-bucket" 2
        (fun _ => .unexpected "socket closed")
      = (false, some ("Unexpected error: " ++ "socket closed")) :=
  (deleter_unexpected_immediate_failure "AWS::S3::Bucket" "my-bucket"
    "socket closed" 2 (fun _ => .unexpected "socket closed")
    (by rfl) (by decide) rfl (by rfl)).1

/-! ## Resource / Snapshot model used by the restore orchestrator

`src/models/resource.py` itself is not among the provided sources (only its
users are). -/

/-- Modelled from the spec: `src/models/resource.py` is absent from the
sources; §3 of the spec gives the Resource value type as `{arn,
resource_type, name, region, tags, config_hash, raw_config?, created_at?}`.
Only the fields the restore orchestrator reads are carried here. -/
structure Resource where
  arn : String
  resource_type : String
  name : String
  region : String
  config_hash : String
  tags : List (String × String)
deriving DecidableEq

/-- `Snapshot` (`src/models/snapshot.py`): the fields the cleaner touches.
`created_at` is a timestamp in the integer time model. -/
structure Snapshot where
  name : String
  created_at : Int
  account_id : String
  regions : List String
  resources : List Resource
  resource_count : Nat
deriving DecidableEq

/-- The resource dictionaries flowing through the cleaner (`{resource_id,
resource_type, region, arn, tags, estimated_monthly_cost}`). -/
structure ResourceDict where
  resource_id : String
  resource_type : String
  region : String
  arn : String
  tags : List (String × String)
  estimated_monthly_cost : Option Int
deriving DecidableEq

/-! ## DeletionOperation / DeletionRecord models
(`src/models/deletion_operation.py`, `src/models/deletion_record.py`) -/

/-- `OperationMode` enum. -/
inductive OperationMode where
  | dry_run
  | execute
deriving DecidableEq

/-- `OperationStatus` enum; `mixed` stands for the source's PARTIAL value
(its enum value string is "partial"). -/
inductive OperationStatus where
  | planned
  | executing
  | completed
  | mixed
  | failed
deriving DecidableEq

/-- The filters dictionary built by `_build_filters_dict` (keys present only
when the corresponding filter list is truthy). -/
structure FiltersDict where
  resource_types : Option (List String)
  regions : Option (List String)
deriving DecidableEq

/-- `DeletionOperation` dataclass. -/
structure DeletionOperation where
  operation_id : String
  baseline_snapshot : String
  timestamp : Int
  account_id : String
  mode : OperationMode
  status : OperationStatus
  total_resources : Nat
  succeeded_count : Nat
  failed_count : Nat
  skipped_count : Nat
  aws_profile : Option String
  filters : Option FiltersDict
  started_at : Option Int
  completed_at : Option Int
  duration_seconds : Option Int
deriving DecidableEq

/-- `DeletionOperation.validate`. -/
def DeletionOperation.validate (op : DeletionOperation) : Except String Bool :=
  if op.succeeded_count + op.failed_count + op.skipped_count != op.total_resources then
    .error "Resource counts don\x27t match total"
  else if (match op.completed_at, op.started_at with
           | some completed, some started => decide (completed < started)
           | _, _ => false) then
    .error "Completion time before start time"
  else if decide (op.mode = .dry_run) && !(decide (op.status = .planned)) then
    .error "Dry-run mode must have planned status"
  else
    .ok true

/-- `DeletionStatus` enum. -/
inductive DeletionStatus where
  | succeeded
  | failed
  | skipped
deriving DecidableEq

/-- `DeletionRecord` dataclass. -/
structure DeletionRecord where
  record_id : String
  operation_id : String
  resource_arn : String
  resource_id : String
  resource_type : String
  region : String
  timestamp : Int
  status : DeletionStatus
  error_code : Option String
  error_message : Option String
  protection_reason : Option String
  deletion_tier : Option Nat
  tags : Option (List (String × String))
  estimated_monthly_cost : Option Int
deriving DecidableEq

/-! ## ResourceCleaner (`src/restore/cleaner.py`)

External collaborators are a `CleanerEnv`: the snapshot store
(`load_snapshot`, with `none` for the not-found / load-failure case), the
live-state collector (`_collect_current_resources`; a placeholder in the
source, mocked in its tests), the safety checker (`is_protected`), the
deleter (`ResourceDeleter.delete_resource` as invoked by
`_delete_resource`), the content hash used by `_dict_to_resource`, the
clock, and the generated operation / record UUIDs.  `preview` and `execute`
additionally return the chronological list of collaborator calls they make,
so that zero-call properties are statable. -/

/-- One call to an external collaborator. -/
inductive CleanerCall where
  | load_snapshot (name : String)
  | collect_current_resources (account_id : String)
  | is_protected (arn : String)
  | delete_resource (arn : String)
  | log_operation (operation_id : String)
deriving DecidableEq

/-- The collaborators of `ResourceCleaner`. -/
structure CleanerEnv where
  load_snapshot : String → Option Snapshot
  collect_current_resources : String → Option (List String) → List ResourceDict
  is_protected : ResourceDict → Bool × Option String
  deleter_delete : String → String → String → String → Bool × Option String
  sha256_hex : String → String
  now : Int
  op_uuid : String
  rec_uuid : Nat → String

/-- Python truthiness of an optional list argument (`None` and `[]` are
falsy). -/
def truthyList (o : Option (List String)) : Bool :=
  match o with
  | some (_ :: _) => true
  | _ => false

/-- Python `regions or snapshot.regions`. -/
def orElseList (o : Option (List String)) (dflt : List String) : List String :=
  if truthyList o then o.getD [] else dflt

namespace ResourceCleaner

/-- `_apply_filters`. -/
def apply_filters (resources : List ResourceDict)
    (resource_types regions : Option (List String)) : List ResourceDict :=
  let filtered :=
    if truthyList resource_types then
      resources.filter fun r => (resource_types.getD []).contains r.resource_type
    else resources
  if truthyList regions then
    filtered.filter fun r => (regions.getD []).contains r.region
  else filtered

/-- `_build_filters_dict`. -/
def build_filters_dict (resource_types regions : Option (List String)) :
    Option FiltersDict :=
  let rt := if truthyList resource_types then resource_types else none
  let rg := if truthyList regions then regions else none
  match rt, rg with
  | none, none => none
  | _, _ => some ⟨rt, rg⟩

/-- `_resource_to_dict` (a `Resource` has no `estimated_monthly_cost`
attribute, so the `getattr` default `None` is always taken). -/
def resource_to_dict (r : Resource) : ResourceDict :=
  { resource_id := r.name
    resource_type := r.resource_type
    region := r.region
    arn := r.arn
    tags := r.tags
    estimated_monthly_cost := none }

/-- `_dict_to_resource`; the sha256 hex digest over `arn + resource_type` is
supplied by the environment. -/
def dict_to_resource (env : CleanerEnv) (d : ResourceDict) : Resource :=
  { arn := d.arn
    resource_type := d.resource_type
    name := d.resource_id
    region := d.region
    config_hash := env.sha256_hex (d.arn ++ d.resource_type)
    tags := d.tags }

/-- The current-side ARN index of `DeltaCalculator` (`{r.arn: r for r in
resources}`): later duplicates overwrite earlier ones, so keep the last
occurrence per ARN. -/
def dedupKeepLast : List Resource → List Resource
  | [] => []
  | r :: rest =>
      if rest.any (fun x => x.arn == r.arn) then dedupKeepLast rest
      else r :: dedupKeepLast rest

/-- The `added_resources` slice of `DeltaCalculator.calculate` as invoked by
the cleaner (no filters, no drift details): current-side resources whose ARN
is absent from the reference snapshot.  The source iterates a Python set
difference in unspecified order; the embedding fixes current-list order,
which is immaterial to the counting and per-record properties proved
below. -/
def added_resources (reference current : Snapshot) : List Resource :=
  let reference_arns := reference.resources.map (fun r => r.arn)
  (dedupKeepLast current.resources).filter fun r =>
    !(reference_arns.contains r.arn)

/-- Steps 1–5 shared verbatim by `preview` and `execute`: load and validate
the baseline snapshot, check the account id, collect current resources, wrap
them in a transient snapshot, compute the delta's added resources, convert
back to dictionaries and apply the filters. -/
def gather_candidates (env : CleanerEnv)
    (baseline_snapshot account_id : String)
    (resource_types regions : Option (List String)) :
    Except String (List ResourceDict) × List CleanerCall :=
  match env.load_snapshot baseline_snapshot with
  | none =>
      (.error ("Snapshot \x27" ++ baseline_snapshot ++ "\x27 not found"),
       [.load_snapshot baseline_snapshot])
  | some snapshot =>
      if snapshot.account_id != account_id then
        (.error ("Account ID mismatch: snapshot has " ++ snapshot.account_id
            ++ ", current credentials have " ++ account_id),
         [.load_snapshot baseline_snapshot])
      else
        let current_resources := env.collect_current_resources account_id regions
        let current_snapshot : Snapshot :=
          { name := "current"
            created_at := env.now
            account_id := account_id
            regions := orElseList regions snapshot.regions
            resources := current_resources.map (dict_to_resource env)
            resource_count := current_resources.length }
        let new_resources :=
          (added_resources snapshot current_snapshot).map resource_to_dict
        (.ok (apply_filters new_resources resource_types regions),
         [.load_snapshot baseline_snapshot,
          .collect_current_resources account_id])

/-- `ResourceCleaner.preview`. -/
def preview (env : CleanerEnv) (baseline_snapshot account_id : String)
    (aws_profile : Option String)
    (resource_types regions : Option (List String)) :
    Except String DeletionOperation × List CleanerCall :=
  match gather_candidates env baseline_snapshot account_id resource_types regions with
  | (.error e, calls) => (.error e, calls)
  | (.ok filtered, calls) =>
      let protected_count := filtered.countP fun r => (env.is_protected r).1
      let operation : DeletionOperation :=
        { operation_id := "op_" ++ env.op_uuid
          baseline_snapshot := baseline_snapshot
          timestamp := env.now
          account_id := account_id
          mode := .dry_run
          status := .planned
          total_resources := filtered.length
          succeeded_count := 0
          failed_count := 0
          skipped_count := protected_count
          aws_profile := aws_profile
          filters := build_filters_dict resource_types regions
          started_at := none
          completed_at := none
          duration_seconds := none }
      (.ok operation, calls ++ filtered.map fun r => .is_protected r.arn)

/-- `_delete_resource`: forwards the dictionary fields to
`ResourceDeleter.delete_resource` and keeps only the success flag (the
returned error message is logged and discarded). -/
def delete_resource_flag (env : CleanerEnv) (resource : ResourceDict) : Bool :=
  (env.deleter_delete resource.resource_type resource.resource_id
    resource.region resource.arn).1

/-- Python `reason or "Protected by safety rules"`. -/
def reasonOrDefault (reason : Option String) : String :=
  match reason with
  | some s => if s == "" then "Protected by safety rules" else s
  | none => "Protected by safety rules"

/-- The SKIPPED record built in the execute loop. -/
def mkSkippedRecord (env : CleanerEnv) (record_id operation_id : String)
    (resource : ResourceDict) (reason : Option String) : DeletionRecord :=
  { record_id := record_id
    operation_id := operation_id
    resource_id := resource.resource_id
    resource_arn := resource.arn
    resource_type := resource.resource_type
    region := resource.region
    status := .skipped
    error_code := none
    error_message := none
    protection_reason := some (reasonOrDefault reason)
    timestamp := env.now
    deletion_tier := none
    tags := none
    estimated_monthly_cost := none }

/-- The SUCCEEDED record built in the execute loop. -/
def mkSucceededRecord (env : CleanerEnv) (record_id operation_id : String)
    (resource : ResourceDict) : DeletionRecord :=
  { record_id := record_id
    operation_id := operation_id
    resource_id := resource.resource_id
    resource_arn := resource.arn
    resource_type := resource.resource_type
    region := resource.region
    status := .succeeded
    error_code := none
    error_message := none
    protection_reason := none
    timestamp := env.now
    deletion_tier := none
    tags := none
    estimated_monthly_cost := none }

/-- The FAILED record built in the execute loop: fixed error code and
message, independent of what the deleter reported. -/
def mkFailedRecord (env : CleanerEnv) (record_id operation_id : String)
    (resource : ResourceDict) : DeletionRecord :=
  { record_id := record_id
    operation_id := operation_id
    resource_id := resource.resource_id
    resource_arn := resource.arn
    resource_type := resource.resource_type
    region := resource.region
    status := .failed
    error_code := some "DeletionFailed"
    error_message := some "Resource deletion failed"
    protection_reason := none
    timestamp := env.now
    deletion_tier := none
    tags := none
    estimated_monthly_cost := none }

/-- Accumulated outcome of the execute loop. -/
structure ExecState where
  succeeded_count : Nat
  failed_count : Nat
  skipped_count : Nat
  records : List DeletionRecord
  calls : List CleanerCall
deriving DecidableEq

/-- The per-resource loop of `execute`: check protection, then (for
unprotected resources) attempt deletion, counting and recording each
outcome.  `idx` numbers the per-record UUIDs chronologically. -/
def process_resources (env : CleanerEnv) (operation_id : String) :
    Nat → List ResourceDict → ExecState
  | _, [] =>
      { succeeded_count := 0, failed_count := 0, skipped_count := 0
        records := [], calls := [] }
  | idx, resource :: rest =>
      let record_id := "rec_" ++ env.rec_uuid idx
      let protection := env.is_protected resource
      if protection.1 then
        let st := process_resources env operation_id (idx + 1) rest
        { st with
          skipped_count := st.skipped_count + 1
          records := mkSkippedRecord env record_id operation_id resource protection.2
            :: st.records
          calls := .is_protected resource.arn :: st.calls }
      else
        let success := delete_resource_flag env resource
        let st := process_resources env operation_id (idx + 1) rest
        if success then
          { st with
            succeeded_count := st.succeeded_count + 1
            records := mkSucceededRecord env record_id operation_id resource
              :: st.records
            calls := .is_protected resource.arn :: .delete_resource resource.arn
              :: st.calls }
        else
          { st with
            failed_count := st.failed_count + 1
            records := mkFailedRecord env record_id operation_id resource
              :: st.records
            calls := .is_protected resource.arn :: .delete_resource resource.arn
              :: st.calls }

/-- The final-status decision at the end of `execute`. -/
def finalStatus (failed_count succeeded_count : Nat) : OperationStatus :=
  if failed_count > 0 then
    if succeeded_count > 0 then .mixed else .failed
  else .completed

/-- `ResourceCleaner.execute`. -/
def execute (env : CleanerEnv) (baseline_snapshot account_id : String)
    (confirmed : Bool) (aws_profile : Option String)
    (resource_types regions : Option (List String)) :
    Except String (DeletionOperation × List DeletionRecord) × List CleanerCall :=
  if !confirmed then
    (.error "Deletion requires explicit confirmation. Set confirmed=True or use --confirm flag.",
     [])
  else
    match gather_candidates env baseline_snapshot account_id resource_types regions with
    | (.error e, calls) => (.error e, calls)
    | (.ok filtered, calls) =>
        let operation_id := "op_" ++ env.op_uuid
        let st := process_resources env operation_id 0 filtered
        let operation : DeletionOperation :=
          { operation_id := operation_id
            baseline_snapshot := baseline_snapshot
            timestamp := env.now
            account_id := account_id
            mode := .execute
            status := finalStatus st.failed_count st.succeeded_count
            total_resources := filtered.length
            succeeded_count := st.succeeded_count
            failed_count := st.failed_count
            skipped_count := st.skipped_count
            aws_profile := aws_profile
            filters := build_filters_dict resource_types regions
            started_at := none
            completed_at := none
            duration_seconds := none }
        (.ok (operation, st.records),
         calls ++ st.calls ++ [.log_operation operation_id])

end ResourceCleaner

/-! ### Lemmas about the execute loop -/

theorem process_resources_counts (env : CleanerEnv) (operation_id : String) :
    ∀ (l : List ResourceDict) (idx : Nat),
      (ResourceCleaner.process_resources env operation_id idx l).succeeded_count
        + (ResourceCleaner.process_resources env operation_id idx l).failed_count
        + (ResourceCleaner.process_resources env operation_id idx l).skipped_count
      = l.length := by
  intro l
  induction l with
  | nil => intro idx; rfl
  | cons resource rest ih =>
    intro idx
    unfold ResourceCleaner.process_resources
    by_cases hp : (env.is_protected resource).1
    · simp only [hp, if_true]
      have := ih (idx + 1)
      simp only [List.length_cons]
      omega
    · simp only [hp, Bool.false_eq_true, if_false]
      by_cases hs : ResourceCleaner.delete_resource_flag env resource
      · simp only [hs, if_true]
        have := ih (idx + 1)
        simp only [List.length_cons]
        omega
      · simp only [hs, Bool.false_eq_true, if_false]
        have := ih (idx + 1)
        simp only [List.length_cons]
        omega

theorem process_resources_failed_records (env : CleanerEnv) (operation_id : String) :
    ∀ (l : List ResourceDict) (idx : Nat) (rec : DeletionRecord),
      rec ∈ (ResourceCleaner.process_resources env operation_id idx l).records →
      rec.status = DeletionStatus.failed →
      rec.error_code = some "DeletionFailed"
        ∧ rec.error_message = some "Resource deletion failed" := by
  intro l
  induction l with
  | nil => intro idx rec hmem; cases hmem
  | cons resource rest ih =>
    intro idx rec hmem hstatus
    unfold ResourceCleaner.process_resources at hmem
    by_cases hp : (env.is_protected resource).1
    · simp only [hp, if_true] at hmem
      rcases List.mem_cons.mp hmem with rfl | hmem'
      · simp [ResourceCleaner.mkSkippedRecord] at hstatus
      · exact ih (idx + 1) rec hmem' hstatus
    · simp only [hp, Bool.false_eq_true, if_false] at hmem
      by_cases hs : ResourceCleaner.delete_resource_flag env resource
      · simp only [hs, if_true] at hmem
        rcases List.mem_cons.mp hmem with rfl | hmem'
        · simp [ResourceCleaner.mkSucceededRecord] at hstatus
        · exact ih (idx + 1) rec hmem' hstatus
      · simp only [hs, Bool.false_eq_true, if_false] at hmem
        rcases List.mem_cons.mp hmem with rfl | hmem'
        · exact ⟨rfl, rfl⟩
        · exact ih (idx + 1) rec hmem' hstatus

/-- Inversion of a successful `execute` run: it went through
`gather_candidates`, and the returned operation and records are built from
the execute loop over the gathered candidates. -/
theorem execute_ok_inversion (env : CleanerEnv)
    (baseline_snapshot account_id : String) (aws_profile : Option String)
    (resource_types regions : Option (List String))
    (op : DeletionOperation) (records : List DeletionRecord)
    (calls : List CleanerCall)
    (h : ResourceCleaner.execute env baseline_snapshot account_id true
        aws_profile resource_types regions = (.ok (op, records), calls)) :
    ∃ filtered gcalls,
      ResourceCleaner.gather_candidates env baseline_snapshot account_id
          resource_types regions = (.ok filtered, gcalls)
      ∧ op.succeeded_count
          = (ResourceCleaner.process_resources env ("op_" ++ env.op_uuid) 0 filtered).succeeded_count
      ∧ op.failed_count
          = (ResourceCleaner.process_resources env ("op_" ++ env.op_uuid) 0 filtered).failed_count
      ∧ op.skipped_count
          = (ResourceCleaner.process_resources env ("op_" ++ env.op_uuid) 0 filtered).skipped_count
      ∧ op.total_resources = filtered.length
      ∧ op.status = ResourceCleaner.finalStatus
          (ResourceCleaner.process_resources env ("op_" ++ env.op_uuid) 0 filtered).failed_count
          (ResourceCleaner.process_resources env ("op_" ++ env.op_uuid) 0 filtered).succeeded_count
      ∧ records = (ResourceCleaner.process_resources env ("op_" ++ env.op_uuid) 0 filtered).records := by
  unfold ResourceCleaner.execute at h
  simp only [Bool.not_true, Bool.false_eq_true, if_false] at h
  rcases hg : ResourceCleaner.gather_candidates env baseline_snapshot account_id
      resource_types regions with ⟨res, gcalls⟩
  rw [hg] at h
  cases res with
  | error e => simp at h
  | ok filtered =>
    simp only [Prod.mk.injEq, Except.ok.injEq] at h
    obtain ⟨⟨hop, hrec⟩, _⟩ := h
    refine ⟨filtered, gcalls, rfl, ?_⟩
    rw [← hop, ← hrec]
    exact ⟨rfl, rfl, rfl, rfl, rfl, rfl⟩

/-- Inversion of a successful `preview` run. -/
theorem preview_ok_inversion (env : CleanerEnv)
    (baseline_snapshot account_id : String) (aws_profile : Option String)
    (resource_types regions : Option (List String))
    (op : DeletionOperation) (calls : List CleanerCall)
    (h : ResourceCleaner.preview env baseline_snapshot account_id
        aws_profile resource_types regions = (.ok op, calls)) :
    ∃ filtered gcalls,
      ResourceCleaner.gather_candidates env baseline_snapshot account_id
          resource_types regions = (.ok filtered, gcalls)
      ∧ op.succeeded_count = 0
      ∧ op.failed_count = 0
      ∧ op.total_resources = filtered.length
      ∧ op.skipped_count = filtered.countP (fun r => (env.is_protected r).1)
      ∧ op.mode = OperationMode.dry_run
      ∧ op.status = OperationStatus.planned := by
  unfold ResourceCleaner.preview at h
  rcases hg : ResourceCleaner.gather_candidates env baseline_snapshot account_id
      resource_types regions with ⟨res, gcalls⟩
  rw [hg] at h
  cases res with
  | error e => simp at h
  | ok filtered =>
    simp only [Prod.mk.injEq, Except.ok.injEq] at h
    obtain ⟨hop, _⟩ := h
    refine ⟨filtered, gcalls, rfl, ?_⟩
    rw [← hop]
    exact ⟨rfl, rfl, rfl, rfl, rfl, rfl⟩

/-! ### Claim theorems about the cleaner -/

/-- C3: `execute` with `confirmed = false` fails with the confirmation
`ValueError` immediately: the returned call trace is empty, so no snapshot
is loaded, the current-state provider is never contacted, no protection
check, deletion or audit write happens — state is unchanged. -/
theorem execute_unconfirmed_rejects_without_calls (env : CleanerEnv)
    (baseline_snapshot account_id : String) (aws_profile : Option String)
    (resource_types regions : Option (List String)) :
    ResourceCleaner.execute env baseline_snapshot account_id false
        aws_profile resource_types regions
      = (.error "Deletion requires explicit confirmation. Set confirmed=True or use --confirm flag.",
         []) := by
  rfl

/-- C1 (amended): every operation returned by `execute` satisfies
`succeeded + failed + skipped = total`; an operation returned by `preview`
has `succeeded = failed = 0`, `total` equal to the number of filtered
candidates and `skipped` equal to the number of protected candidates — so
its counts sum to `total` only when every candidate is protected. -/
theorem cleaner_operation_count_invariant (env : CleanerEnv)
    (baseline_snapshot account_id : String) (aws_profile : Option String)
    (resource_types regions : Option (List String)) :
    (∀ op records calls,
      ResourceCleaner.execute env baseline_snapshot account_id true
          aws_profile resource_types regions = (.ok (op, records), calls) →
      op.succeeded_count + op.failed_count + op.skipped_count = op.total_resources)
    ∧ (∀ op calls filtered gcalls,
      ResourceCleaner.gather_candidates env baseline_snapshot account_id
          resource_types regions = (.ok filtered, gcalls) →
      ResourceCleaner.preview env baseline_snapshot account_id
          aws_profile resource_types regions = (.ok op, calls) →
      op.succeeded_count = 0 ∧ op.failed_count = 0
        ∧ op.total_resources = filtered.length
        ∧ op.skipped_count = filtered.countP (fun r => (env.is_protected r).1)) := by
  constructor
  · intro op records calls h
    obtain ⟨filtered, gcalls, _, hsucc, hfail, hskip, htotal, _, _⟩ :=
      execute_ok_inversion env baseline_snapshot account_id aws_profile
        resource_types regions op records calls h
    rw [hsucc, hfail, hskip, htotal]
    exact process_resources_counts env ("op_" ++ env.op_uuid) filtered 0
  · intro op calls filtered gcalls hg h
    obtain ⟨filtered2, gcalls2, hg2, hsucc, hfail, htotal, hskip, _, _⟩ :=
      preview_ok_inversion env baseline_snapshot account_id aws_profile
        resource_types regions op calls h
    rw [hg] at hg2
    obtain ⟨hf, _⟩ := Prod.mk.injEq _ _ _ _ |>.mp hg2.symm
    obtain hf2 := Except.ok.injEq _ _ |>.mp hf
    subst hf2
    exact ⟨hsucc, hfail, htotal, hskip⟩

/-- C6: the final status of an `execute` run is FAILED when nothing
succeeded and something failed, PARTIAL (`mixed` here) when both counts are
positive, and COMPLETED otherwise — in particular whenever nothing failed,
which covers the all-skipped and all-succeeded cases. -/
theorem execute_final_status_cases (env : CleanerEnv)
    (baseline_snapshot account_id : String) (aws_profile : Option String)
    (resource_types regions : Option (List String))
    (op : DeletionOperation) (records : List DeletionRecord)
    (calls : List CleanerCall)
    (h : ResourceCleaner.execute env baseline_snapshot account_id true
        aws_profile resource_types regions = (.ok (op, records), calls)) :
    (op.succeeded_count = 0 ∧ 0 < op.failed_count →
        op.status = OperationStatus.failed)
    ∧ (0 < op.succeeded_count ∧ 0 < op.failed_count →
        op.status = OperationStatus.mixed)
    ∧ (op.failed_count = 0 → op.status = OperationStatus.completed) := by
  obtain ⟨filtered, gcalls, _, hsucc, hfail, _, _, hstatus, _⟩ :=
    execute_ok_inversion env baseline_snapshot account_id aws_profile
      resource_types regions op records calls h
  rw [hstatus, ← hsucc, ← hfail]
  refine ⟨?_, ?_, ?_⟩
  · rintro ⟨h1, h2⟩
    simp [ResourceCleaner.finalStatus, h1, h2]
  · rintro ⟨h1, h2⟩
    simp [ResourceCleaner.finalStatus, h1, h2]
  · intro h1
    simp [ResourceCleaner.finalStatus, h1]

/-- C2 (amended): every FAILED record emitted by `execute` carries the fixed
`error_code = "DeletionFailed"` and `error_message = "Resource deletion
failed"`; the error message returned by the deletion strategy is discarded
(only logged), never copied into the record. -/
theorem execute_failed_records_generic (env : CleanerEnv)
    (baseline_snapshot account_id : String) (aws_profile : Option String)
    (resource_types regions : Option (List String))
    (op : DeletionOperation) (records : List DeletionRecord)
    (calls : List CleanerCall)
    (h : ResourceCleaner.execute env baseline_snapshot account_id true
        aws_profile resource_types regions = (.ok (op, records), calls)) :
    ∀ rec ∈ records, rec.status = DeletionStatus.failed →
      rec.error_code = some "DeletionFailed"
        ∧ rec.error_message = some "Resource deletion failed" := by
  obtain ⟨filtered, gcalls, _, _, _, _, _, _, hrecords⟩ :=
    execute_ok_inversion env baseline_snapshot account_id aws_profile
      resource_types regions op records calls h
  intro rec hmem hstatus
  rw [hrecords] at hmem
  exact process_resources_failed_records env ("op_" ++ env.op_uuid)
    filtered 0 rec hmem hstatus

/-! ### Concrete environments, the C1/C2 counterexamples and the witnesses -/

/-- Placeholder operation for the projection helpers. -/
def junkOperation : DeletionOperation :=
  { operation_id := "", baseline_snapshot := "", timestamp := 0
    account_id := "", mode := .dry_run, status := .planned
    total_resources := 0, succeeded_count := 0, failed_count := 0
    skipped_count := 0, aws_profile := none, filters := none
    started_at := none, completed_at := none, duration_seconds := none }

/-- Placeholder record for the projection helpers. -/
def junkRecord : DeletionRecord :=
  { record_id := "", operation_id := "", resource_arn := "", resource_id := ""
    resource_type := "", region := "", timestamp := 0
    status := .succeeded, error_code := none, error_message := none
    protection_reason := none, deletion_tier := none, tags := none
    estimated_monthly_cost := none }

/-- Operation component of a `preview` result. -/
def previewOperation (r : Except String DeletionOperation × List CleanerCall) :
    DeletionOperation :=
  match r.1 with
  | .ok op => op
  | .error _ => junkOperation

/-- Operation component of an `execute` result. -/
def executeOperation
    (r : Except String (DeletionOperation × List DeletionRecord) × List CleanerCall) :
    DeletionOperation :=
  match r.1 with
  | .ok (op, _) => op
  | .error _ => junkOperation

/-- Records component of an `execute` result. -/
def executeRecords
    (r : Except String (DeletionOperation × List DeletionRecord) × List CleanerCall) :
    List DeletionRecord :=
  match r.1 with
  | .ok (_, records) => records
  | .error _ => []

/-- An empty baseline snapshot for account 123456789012. -/
def baseSnap : Snapshot :=
  { name := "base", created_at := 0, account_id := "123456789012"
    regions := ["us-east-1"], resources := [], resource_count := 0 }

/-- A live resource created after the baseline. -/
def newInstanceDict : ResourceDict :=
  { resource_id := "i-new", resource_type := "AWS::EC2::Instance"
    region := "us-east-1"
    arn := "arn:aws:ec2:us-east-1:123456789012:instance/i-new"
    tags := [], estimated_monthly_cost := none }

/-- Environment with one unprotected deletion candidate whose deletion
succeeds (the sha256 digest is instantiated with the identity, which is
adequate because the cleaner only stores the digest). -/
def c1env : CleanerEnv :=
  { load_snapshot := fun nm => if nm == "base" then some baseSnap else none
    collect_current_resources := fun _ _ => [newInstanceDict]
    is_protected := fun _ => (false, none)
    deleter_delete := fun _ _ _ _ => (true, none)
    sha256_hex := fun s => s
    now := 0
    op_uuid := "uuid-op"
    rec_uuid := fun i => toString i }

/-- The preview run over `c1env`. -/
def c1previewRun : Except String DeletionOperation × List CleanerCall :=
  ResourceCleaner.preview c1env "base" "123456789012" none none none

/-- The operation `preview` returns over `c1env`. -/
def c1operation : DeletionOperation := previewOperation c1previewRun

/-- C1 counterexample: with one unprotected candidate, the operation
returned by `preview` has `total_resources = 1` but `succeeded = failed =
skipped = 0`, so the count invariant fails — the operation even fails its
own `DeletionOperation.validate`. -/
theorem preview_counts_break_invariant :
    c1operation.succeeded_count + c1operation.failed_count
        + c1operation.skipped_count ≠ c1operation.total_resources
    ∧ exceptOk c1operation.validate = false := by
  refine ⟨?_, ?_⟩ <;> decide

/-- The execute run over `c1env`. -/
def c1executeRun :
    Except String (DeletionOperation × List DeletionRecord) × List CleanerCall :=
  ResourceCleaner.execute c1env "base" "123456789012" true none none none

/-- Witness for the amended C1 theorem: both parts applied over `c1env`. -/
theorem cleaner_operation_count_invariant_witness :
    ((executeOperation c1executeRun).succeeded_count
        + (executeOperation c1executeRun).failed_count
        + (executeOperation c1executeRun).skipped_count
      = (executeOperation c1executeRun).total_resources)
    ∧ ((previewOperation c1previewRun).succeeded_count = 0
        ∧ (previewOperation c1previewRun).failed_count = 0
        ∧ (previewOperation c1previewRun).total_resources = [newInstanceDict].length
        ∧ (previewOperation c1previewRun).skipped_count
            = [newInstanceDict].countP (fun r => (c1env.is_protected r).1)) := by
  constructor
  · exact (cleaner_operation_count_invariant c1env "base" "123456789012"
      none none none).1 (executeOperation c1executeRun)
      (executeRecords c1executeRun) c1executeRun.2 (by rfl)
  · exact (cleaner_operation_count_invariant c1env "base" "123456789012"
      none none none).2 (previewOperation c1previewRun) c1previewRun.2
      [newInstanceDict]
      [.load_snapshot "base", .collect_current_resources "123456789012"]
      (by rfl) (by rfl)

/-- Witness for C6 at `c1env` (one successful deletion, nothing failed →
COMPLETED). -/
theorem execute_final_status_cases_witness :
    (executeOperation c1executeRun).failed_count = 0
    ∧ (executeOperation c1executeRun).status = OperationStatus.completed := by
  refine ⟨by decide, ?_⟩
  exact (execute_final_status_cases c1env "base" "123456789012" none none none
    (executeOperation c1executeRun) (executeRecords c1executeRun)
    c1executeRun.2 (by rfl)).2.2 (by decide)

/-- Environment identical to `c1env` except that the deleter reports failure
with a specific provider error message. -/
def c2env : CleanerEnv :=
  { load_snapshot := fun nm => if nm == "base" then some baseSnap else none
    collect_current_resources := fun _ _ => [newInstanceDict]
    is_protected := fun _ => (false, none)
    deleter_delete := fun _ _ _ _ => (false, some "AccessDenied: access denied")
    sha256_hex := fun s => s
    now := 0
    op_uuid := "uuid-op"
    rec_uuid := fun i => toString i }

/-- The execute run over `c2env`. -/
def c2run :
    Except String (DeletionOperation × List DeletionRecord) × List CleanerCall :=
  ResourceCleaner.execute c2env "base" "123456789012" true none none none

/-- The single deletion record of the `c2env` execute run. -/
def c2record : DeletionRecord :=
  match executeRecords c2run with
  | r :: _ => r
  | [] => junkRecord

/-- C2 counterexample: the deletion strategy fails with
"AccessDenied: access denied", but the emitted FAILED record does not carry
that message — it carries the fixed code "DeletionFailed" and message
"Resource deletion failed". -/
theorem execute_record_discards_strategy_error :
    c2record.status = DeletionStatus.failed
    ∧ (c2env.deleter_delete newInstanceDict.resource_type
        newInstanceDict.resource_id newInstanceDict.region
        newInstanceDict.arn).2 = some "AccessDenied: access denied"
    ∧ c2record.error_message ≠ some "AccessDenied: access denied"
    ∧ c2record.error_code = some "DeletionFailed"
    ∧ c2record.error_message = some "Resource deletion failed" := by
  refine ⟨?_, ?_, ?_, ?_, ?_⟩ <;> decide

/-- Witness for the amended C2 theorem at the concrete failing run. -/
theorem execute_failed_records_generic_witness :
    c2record.error_code = some "DeletionFailed"
      ∧ c2record.error_message = some "Resource deletion failed" :=
  execute_failed_records_generic c2env "base" "123456789012" none none none
    (executeOperation c2run) (executeRecords c2run) c2run.2 (by rfl)
    c2record (by decide) (by decide)

end AwsInv
